import Mathlib

/-!
Verification of the fetch-extra request-lifecycle wrapper.

The embedding below translates the current implementation variant of the
repository (src/unnamed/part_005, second document, lines 288-703: the
undici-based wrapper exporting `fetch`/`makeFetch`) together with its
constants module (src/unnamed/part_004: RESPONSE_TYPES, STATE_INTERNAL)
and its errors module (src/unnamed/part_000, first document).

Wall-clock behaviour (timers, the rate limiter) is represented by an
explicit discrete time model for the stall clock, and the transport,
retry-decision functions and validators are oracles supplied to each run,
exactly as they are external collaborators of the source.
-/

namespace FetchExtra

/-- HTTP method, resource and payloads are plain strings in the model. -/
abbrev Resource := String

/-- Error taxonomy of the wrapper (src/unnamed/part_000 doc 1: HttpError,
TimeoutError; plus abort-class errors raised by the transport and opaque
errors thrown by user validators or the stream). -/
inductive JsError where
  | http (status : Nat) (statusText : String)
  | timeout (reason : String)
  | abort
  | user (msg : String)
deriving DecidableEq, Repr

/-- The four named timeout budgets (options.timeouts). -/
structure Timeouts where
  overall : Option Nat := none
  request : Option Nat := none
  body : Option Nat := none
  stall : Option Nat := none
deriving DecidableEq, Repr

/-- A user-supplied external cancellation signal: we only need whether it
is already aborted when an attempt starts. -/
structure Signal where
  aborted : Bool
deriving DecidableEq, Repr

/-- The view of the response a response-level validator receives.  In the
source (part_005 line 652) the validator is handed the freshly constructed
Response object; `bodyAttached` records whether that object carries the
wrapped body stream at that moment. -/
structure RespView where
  status : Nat
  statusText : String
  ok : Bool
  bodyAttached : Bool
deriving DecidableEq, Repr

/-- The closed set of body-materialization operations intercepted by the
proxy (src/unnamed/part_004: RESPONSE_TYPES). -/
inductive MatKind where
  | arrayBuffer
  | blob
  | formData
  | json
  | text
deriving DecidableEq, Repr

/-- A per-body-kind validator: receives the materialized value and the
attempt counter of the state, throws by returning some error. -/
abbrev PerKindFn := String → Nat → Option JsError

/-- A response-level validator entry before/after normalization:
the literal `true`, the installed `defaultValidate`, or a user function. -/
inductive RespVal where
  | vTrue
  | vDefault
  | vFn (f : RespView → Nat → Option JsError)

/-- The object form of the `validate` option. -/
structure ValidateObj where
  response : Option RespVal := none
  perKind : MatKind → Option PerKindFn := fun _ => none

/-- The `validate` option as the caller may pass it:
`true`, a bare function (treated as response validator), or an object. -/
inductive ValidateOpt where
  | vTrue
  | vFn (f : RespView → Nat → Option JsError)
  | vObj (o : ValidateObj)

/-- The `retry` option: absent (or any non-number non-function value),
a numeric attempt ceiling, or a decision function (the function itself is
an oracle passed to each run, `fnUse` marks that it is configured). -/
inductive RetryOpt where
  | noRetry
  | num (n : Nat)
  | fnUse
deriving DecidableEq, Repr

/-- The request options recognized by the wrapper (types.d.ts
FetchOptions; transport-level fields reduced to method/headers/body). -/
structure FetchOptions where
  method : Option String := none
  headers : List (String × String) := []
  body : Option String := none
  retry : RetryOpt := .noRetry
  timeout : Option Nat := none
  timeouts : Option Timeouts := none
  validate : Option ValidateOpt := none
  signal : Option Signal := none

/-- A partial options record as returned by a retry decision function.
A field that is `none` is not mentioned by the returned object. -/
structure OptionsPatch where
  method : Option String := none
  headers : Option (List (String × String)) := none
  body : Option String := none
  retry : Option RetryOpt := none
  timeout : Option Nat := none
  timeouts : Option Timeouts := none
  validate : Option ValidateOpt := none
  signal : Option Signal := none

/-- Object.assign(state.options, retryResult.options) at part_005 line
429: a shallow top-level merge; fields mentioned by the patch replace the
old value wholesale, unmentioned fields are left unchanged. -/
def assignOptions (o : FetchOptions) (p : OptionsPatch) : FetchOptions where
  method := match p.method with | some m => some m | none => o.method
  headers := p.headers.getD o.headers
  body := match p.body with | some b => some b | none => o.body
  retry := p.retry.getD o.retry
  timeout := match p.timeout with | some t => some t | none => o.timeout
  timeouts := match p.timeouts with | some t => some t | none => o.timeouts
  validate := match p.validate with | some v => some v | none => o.validate
  signal := match p.signal with | some s => some s | none => o.signal

/-- What a retry decision function receives (part_005 line 421: the whole
mutable state, the error and whether a response exists). -/
structure RetryParams where
  attempt : Nat
  resource : Resource
  options : FetchOptions
  error : Option JsError
  hasResponse : Bool

/-- The outcome of awaiting a retry decision function: it may throw,
return a boolean (any non-object non-true value behaves as `false`), or
return an object with optional resource and options. -/
inductive RetryFnResult where
  | thrown (e : JsError)
  | boolV (b : Bool)
  | obj (resource : Option Resource) (options : Option OptionsPatch)

/-- The user retry decision function, supplied as an oracle. -/
abbrev RetryFn := RetryParams → RetryFnResult

/-- Transfer statistics as attached by signalCompleted (part_005 lines
330-334), restricted to the discretely-modelled fields: the byte counter
(undefined until a body phase starts) and the attempt count.  The
wall-clock duration/speed fields are modelled separately below. -/
structure OpStats where
  size : Option Nat
  attempts : Nat
deriving DecidableEq, Repr

/-- A settled completion outcome: resolve(stats) or reject(error with
stats attached). -/
inductive Settled where
  | ok (s : OpStats)
  | err (e : JsError) (s : OpStats)
deriving DecidableEq, Repr

/-- The `completed` promise of the FetchState, with JS promise semantics:
the first resolve/reject settles the cell, later invocations are no-ops.
`resolveCount`/`rejectCount` count the invocations of the stored resolver
and rejecter, `settles` counts the effective none-to-some transitions. -/
structure Completion where
  cell : Option Settled := none
  resolveCount : Nat := 0
  rejectCount : Nat := 0
  settles : Nat := 0
deriving DecidableEq, Repr

/-- Invoke the resolve half (signalCompleted with no error). -/
def Completion.resolve (c : Completion) (s : OpStats) : Completion where
  cell := match c.cell with
    | none => some (.ok s)
    | some x => some x
  resolveCount := c.resolveCount + 1
  rejectCount := c.rejectCount
  settles := match c.cell with
    | none => c.settles + 1
    | some _ => c.settles

/-- Invoke the reject half (signalCompleted with an error; the stats are
attached onto the error before rejecting, part_005 lines 336-339). -/
def Completion.reject (c : Completion) (e : JsError) (s : OpStats) : Completion where
  cell := match c.cell with
    | none => some (.err e s)
    | some x => some x
  resolveCount := c.resolveCount
  rejectCount := c.rejectCount + 1
  settles := match c.cell with
    | none => c.settles + 1
    | some _ => c.settles

/-- The per-logical-operation FetchState (part_005 lines 327-363)
together with the STATE_INTERNAL fields the loop maintains
(internalValidate mirrors state[STATE_INTERNAL].options.validate,
transportCalls counts invocations of the origFetch collaborator). -/
structure OpState where
  resource : Resource
  options : FetchOptions
  internalValidate : Option ValidateObj := none
  attempt : Nat := 0
  size : Option Nat := none
  validateStarted : Bool := false
  comp : Completion := {}
  transportCalls : Nat := 0

/-- Stats captured at signal time (size counter and attempt count). -/
def OpState.stats (st : OpState) : OpStats :=
  { size := st.size, attempts := st.attempt }

/-- signalCompleted() with success. -/
def OpState.signalSuccess (st : OpState) : OpState :=
  { st with comp := st.comp.resolve st.stats }

/-- signalCompleted(error). -/
def OpState.signalErr (st : OpState) (e : JsError) : OpState :=
  { st with comp := st.comp.reject e st.stats }

/-- The fresh state built at the top of `fetch` when no state is passed
(part_005 line 597 and the FetchState constructor). -/
def initState (resource : Resource) (options : FetchOptions) : OpState :=
  { resource := resource, options := options }

/-- What the transport collaborator returns on success: status line, the
ok flag, and whether a body stream is present. -/
structure TranspResp where
  status : Nat
  statusText : String
  ok : Bool
  hasBodyStream : Bool
deriving DecidableEq, Repr

/-- The options record handed to the transport for one attempt, as
computed by prepareOptions (part_005 lines 448-534): method defaulted,
the `timeout` alias folded into `timeouts.overall`, the validate option
normalized, and `signalAborted` recording that the internal abort
controller was aborted before dispatch because the user signal was
already aborted (lines 475-477). -/
structure Prepared where
  method : String
  headers : List (String × String)
  body : Option String
  timeouts : Option Timeouts
  validate : Option ValidateObj
  signalAborted : Bool

/-- Normalization of the `validate` option (part_005 lines 459-465):
`true` becomes the default response validator, a bare function becomes a
response validator, and a `response: true` entry becomes the default
validator.  `defaultValidate` (lines 443-446) throws HttpError on a
non-ok response. -/
def normalizeValidate : Option ValidateOpt → Option ValidateObj
  | some .vTrue => some { response := some .vDefault }
  | some (.vFn f) => some { response := some (.vFn f) }
  | some (.vObj o) =>
    some { o with response := match o.response with
                              | some .vTrue => some .vDefault
                              | r => r }
  | none => none

/-- Run a (normalized) response-level validator.  `vDefault` is
defaultValidate (part_005 lines 443-446).  `vTrue` is unreachable here
because normalizeValidate rewrites it before any call. -/
def runRespValidator : RespVal → RespView → Nat → Option JsError
  | .vDefault, rv, _ => if rv.ok then none else some (.http rv.status rv.statusText)
  | .vFn f, rv, a => f rv a
  | .vTrue, _, _ => none

/-- prepareOptions (part_005 lines 448-534), restricted to the fields the
discrete model tracks.  The timer arming/disarming closures are modelled
by the stall-clock semantics below. -/
def prepareOptions (st : OpState) : Prepared :=
  let o := st.options
  let method := match o.method with
    | none => "GET"
    | some m => if m = "" then "GET" else m
  let timeouts := match o.timeout with
    | some t => if t ≠ 0 then some { o.timeouts.getD {} with overall := some t } else o.timeouts
    | none => o.timeouts
  let validate := normalizeValidate o.validate
  let hasController :=
    timeouts.isSome || o.signal.isSome || (validate.bind (fun v => v.response)).isSome
  let signalAborted :=
    hasController && (match o.signal with | some s => s.aborted | none => false)
  { method := method, headers := o.headers, body := o.body,
    timeouts := timeouts, validate := validate, signalAborted := signalAborted }

/-- The transport collaborator (origFetch). -/
abbrev Transport := Nat → Resource → Prepared → Except JsError TranspResp

/-- The documented contract of the undici fetch collaborator with respect
to cancellation: invoked with an already-aborted signal it rejects
immediately with an abort-class error and performs no network activity;
otherwise it responds. -/
def undiciTransport (respond : Nat → Except JsError TranspResp) : Transport :=
  fun a _ p => if p.signalAborted then .error .abort else respond a

/-- shouldRetry (part_005 lines 410-441).  Numeric policy: grant while
attempt < ceiling.  Function policy: a thrown decision is swallowed and
denies; an object result optionally replaces the resource, shallowly
merges the options, and grants; `true` grants; anything else denies.
No policy denies. -/
def runShouldRetry (rf : RetryFn) (st : OpState) (error : Option JsError)
    (hasResponse : Bool) : Bool × OpState :=
  match st.options.retry with
  | .num n => (decide (st.attempt < n), st)
  | .fnUse =>
    match rf { attempt := st.attempt, resource := st.resource,
               options := st.options, error := error, hasResponse := hasResponse } with
    | .thrown _ => (false, st)
    | .obj r o =>
      let st1 := match r with
        | some res => { st with resource := res }
        | none => st
      let st2 := match o with
        | some p => { st1 with options := assignOptions st1.options p }
        | none => st1
      (true, st2)
    | .boolV b => (b, st)
  | .noRetry => (false, st)

/-- The view handed to the response-level validator: the Response object
constructed at part_005 lines 636-645.  When the response has a body the
wrapped body stream is attached to that object; the validator receives it
as-is (line 652). -/
def mkRespView (resp : TranspResp) (hasBody : Bool) : RespView :=
  { status := resp.status, statusText := resp.statusText, ok := resp.ok,
    bodyAttached := hasBody }

/-- The statuses that must never carry a body (part_005 lines 630-635,
per the fetch spec). -/
def noBodyStatus (s : Nat) : Bool :=
  s = 101 || s = 103 || s = 204 || s = 205 || s = 304

/-- What the wrapper returns to the caller from a successful attempt:
either a bodyless Response (body = null, not proxied, completion already
signalled) or the Proxy-wrapped Response whose body stream is wrapped. -/
inductive FetchResult where
  | bodyless (status : Nat)
  | proxied (status : Nat)
deriving DecidableEq, Repr

/-- Whether the result wraps a body stream. -/
def FetchResult.wrapsBody : FetchResult → Bool
  | .bodyless _ => false
  | .proxied _ => true

/-- Whether the body of the returned response is null. -/
def FetchResult.bodyIsNull : FetchResult → Bool
  | .bodyless _ => true
  | .proxied _ => false

/-- Outcome of the attempt loop: a returned response or a thrown error. -/
inductive FetchOut where
  | ok (r : FetchResult)
  | thrown (e : JsError)
deriving DecidableEq, Repr

/-- Outcome of one iteration of the attempt loop: retry with the
(possibly mutated) state, or finish returning/throwing. -/
inductive StepOut where
  | retryWith (st : OpState)
  | done (st : OpState) (r : FetchOut)

/-- The catch branch of the attempt loop (part_005 lines 663-672):
consult shouldRetry; on grant continue the loop with the mutated state,
on denial signal completion with the error and throw it. -/
def retryOrFinish (rf : RetryFn) (st : OpState) (e : JsError)
    (hasResponse : Bool) : StepOut :=
  let gs := runShouldRetry rf st (some e) hasResponse
  if gs.fst then .retryWith gs.snd
  else .done (gs.snd.signalErr e) (.thrown e)

/-- The tail of a successful attempt (part_005 lines 655-662): a bodyless
response signals completion immediately and is returned unproxied; a
bodied response resets validateStarted and is returned behind the proxy. -/
def finishOk (st : OpState) (resp : TranspResp) (hasBody : Bool) : StepOut :=
  if hasBody then .done { st with validateStarted := false } (.ok (.proxied resp.status))
  else .done st.signalSuccess (.ok (.bodyless resp.status))

/-- The resets at the top of each loop iteration (part_005 lines 599-603):
increment the attempt counter and clear the attempt-scoped fields. -/
def attemptEntry (st0 : OpState) : OpState :=
  { st0 with attempt := st0.attempt + 1, size := none, validateStarted := false }

/-- The state right after dispatching to the transport: the prepared
options are stored in the internal slot and the transport call counted. -/
def dispatchState (st0 : OpState) : OpState :=
  { attemptEntry st0 with internalValidate := (prepareOptions (attemptEntry st0)).validate,
                          transportCalls := st0.transportCalls + 1 }

/-- validateStarted is raised before awaiting the response validator
(part_005 line 651). -/
def validatingState (st : OpState) : OpState :=
  { st with validateStarted := true }

/-- One iteration of the do-while attempt loop of `fetch` (part_005 lines
598-674): increment the attempt counter, reset the attempt-scoped fields,
prepare the options, invoke the transport, construct the response
(wrapped or bodyless), run the response-level validator if configured,
and finish or route the error to shouldRetry. -/
def fetchStep (tr : Transport) (rf : RetryFn) (st0 : OpState) : StepOut :=
  let prep := prepareOptions (attemptEntry st0)
  let st2 := dispatchState st0
  match tr st2.attempt st2.resource prep with
  | .error e => retryOrFinish rf st2 e false
  | .ok resp =>
    let hasBody := resp.hasBodyStream && !(noBodyStatus resp.status)
    match prep.validate.bind (fun v => v.response) with
    | some rv =>
      let st3 := validatingState st2
      match runRespValidator rv (mkRespView resp hasBody) st3.attempt with
      | some e => retryOrFinish rf st3 e true
      | none => finishOk st3 resp hasBody
    | none => finishOk st2 resp hasBody

/-- The attempt loop of `fetch` (part_005 lines 596-675), fuel-indexed;
`none` means the fuel ran out before the loop finished. -/
def fetchLoop (tr : Transport) (rf : RetryFn) :
    Nat → OpState → Option (OpState × FetchOut)
  | 0, _ => none
  | fuel + 1, st =>
    match fetchStep tr rf st with
    | .retryWith st1 => fetchLoop tr rf fuel st1
    | .done st1 r => some (st1, r)

/-- What a body-materialization call observes from the underlying
Response method: the wrapped stream is consumed to the end and the value
materializes, or the stream errors. -/
inductive MatOutcome where
  | ok (v : String)
  | streamError (e : JsError)

/-- Oracle for the underlying materialization per attempt and kind. -/
abbrev MatOracle := Nat → MatKind → MatOutcome

/-- The non-retry part of one proxied materialization call (part_005
lines 559-569 together with the body-stream callbacks of wrapBodyStream
and prepareOptions, lines 377-396 and 501-515): look up the per-kind
validator, set validateStarted when one is configured, await the
underlying call (during which the wrapped stream signals completion from
onBodyResolve/onBodyError unless a validator is pending), run the
validator, and on success signal completion. -/
def matPhase (matO : MatOracle) (kind : MatKind) (st0 : OpState) :
    OpState × Except JsError String :=
  match st0.internalValidate.bind (fun v => v.perKind kind) with
  | none =>
    match matO st0.attempt kind with
    | .ok v =>
      let st2 := { st0 with size := some v.length }
      let st3 := if st2.validateStarted then st2 else st2.signalSuccess
      (st3.signalSuccess, .ok v)
    | .streamError e =>
      let st2 := { st0 with size := some 0 }
      let st3 := if st2.validateStarted then st2 else st2.signalErr e
      (st3, .error e)
  | some f =>
    let st1 := { st0 with validateStarted := true }
    match matO st1.attempt kind with
    | .ok v =>
      let st2 := { st1 with size := some v.length }
      match f v st2.attempt with
      | none => (st2.signalSuccess, .ok v)
      | some e => (st2, .error e)
    | .streamError e =>
      ({ st1 with size := some 0 }, .error e)

/-- One proxied materialization call (part_005 lines 552-588): on
failure consult shouldRetry; on grant run a brand-new attempt loop with
the mutated state and delegate the same call to the new response; on
denial signal completion with the error and rethrow. -/
def proxyCall (tr : Transport) (rf : RetryFn) (matO : MatOracle) (kind : MatKind) :
    Nat → OpState → Option (OpState × Except JsError String)
  | 0, _ => none
  | fuel + 1, st0 =>
    match matPhase matO kind st0 with
    | (st1, .ok v) => some (st1, .ok v)
    | (st1, .error e) =>
      let gs := runShouldRetry rf st1 (some e) true
      if gs.fst then
        match fetchLoop tr rf fuel gs.snd with
        | none => none
        | some (st2, .thrown e2) => some (st2, .error e2)
        | some (st2, .ok (.bodyless _)) => some (st2, .ok "")
        | some (st2, .ok (.proxied _)) => proxyCall tr rf matO kind fuel st2
      else some (gs.snd.signalErr e, .error e)

/-- The caller-visible outcome of the whole logical operation. -/
inductive OpOutcome where
  | threw (e : JsError)
  | value (v : String)
deriving DecidableEq, Repr

/-- One whole logical operation: the attempt loop followed by the single
materialization call the caller makes on the returned response (a call
on a bodyless response trivially yields the empty value; its completion
was already signalled by the loop). -/
def runOp (tr : Transport) (rf : RetryFn) (matO : MatOracle) (fuel : Nat)
    (resource : Resource) (options : FetchOptions) (kind : MatKind) :
    Option (OpState × OpOutcome) :=
  match fetchLoop tr rf fuel (initState resource options) with
  | none => none
  | some (st, .thrown e) => some (st, .threw e)
  | some (st, .ok (.bodyless _)) => some (st, .value "")
  | some (st, .ok (.proxied _)) =>
    match proxyCall tr rf matO kind fuel st with
    | none => none
    | some (st2, .ok v) => some (st2, .value v)
    | some (st2, .error e) => some (st2, .threw e)

/-! ### The stall clock

wrapBodyStream (part_005 lines 365-402) re-arms the stall clock through
makeAbort at the start of every pull and clears it when the read
resolves; makeAbort (lines 485-496) cancels any pending timer for the
name and starts a fresh one, and does nothing when no budget is
configured.  The discrete model walks the list of read durations (the
gap between arming and the arrival of the chunk or the end-of-stream
signal); the timer set at absolute time t with budget T fires when the
awaited event arrives at or after t + T. -/

/-- The pull loop with the stall timer re-armed from the current time at
every iteration. -/
def stallLoop (stallMs : Nat) : Nat → List Nat → Bool
  | _, [] => false
  | t, gap :: rest =>
    if t + stallMs ≤ t + gap then true
    else stallLoop stallMs (t + gap) rest

/-- Whether the stall clock fires during a body transfer whose reads take
the given gaps, starting at absolute time t0.  Mirrors the makeAbort
guard: an absent or zero budget never arms the timer. -/
def stallFires (stallOpt : Option Nat) (t0 : Nat) (gaps : List Nat) : Bool :=
  match stallOpt with
  | none => false
  | some ms => if ms = 0 then false else stallLoop ms t0 gaps

/-! ### Transfer statistics

signalCompleted (part_005 lines 330-342) computes the stats delivered
through `completed` from the byte counter, the wall-clock marks and the
attempt counter; calculateFetchStats (part_005 lines 18-25, the legacy
node-fetch variant in the same file) computes the stats of that variant
with an explicit zero-duration floor. -/

/-- A JS number restricted to what division can produce here. -/
inductive JsNum where
  | num (q : ℚ)
  | posInf
  | nan
deriving DecidableEq

/-- Math.round(size / duration) with JS division semantics for
non-negative size: positive / 0 is Infinity, 0 / 0 is NaN. -/
def jsRoundDiv (size : ℚ) (duration : ℚ) : JsNum :=
  if duration = 0 then (if size = 0 then .nan else .posInf)
  else .num ((round (size / duration) : ℤ) : ℚ)

/-- The stats record built by signalCompleted. -/
structure FetchStatsQ where
  size : Option Nat
  duration : ℚ
  speed : JsNum
  attempts : Nat
deriving DecidableEq

/-- signalCompleted stats computation (part_005 lines 330-334):
duration = performance.now() - startTs (milliseconds); speed is
Math.round(size / duration) guarded by a truthiness check on the size
counter (an undefined or zero size yields speed 0). -/
def signalCompletedStats (size : Option Nat) (startTs now : ℚ)
    (attempts : Nat) : FetchStatsQ :=
  let duration := now - startTs
  let speed : JsNum := match size with
    | some s => if s ≠ 0 then jsRoundDiv (s : ℚ) duration else .num 0
    | none => .num 0
  { size := size, duration := duration, speed := speed, attempts := attempts }

/-- The stats record of the legacy variant. -/
structure FetchStatsLegacy where
  size : Nat
  duration : ℚ
  speed : JsNum
deriving DecidableEq

/-- calculateFetchStats (part_005 lines 18-25, legacy variant): duration
in seconds, floored to 0.001 when zero so that speed is never infinite. -/
def calculateFetchStats (size : Nat) (startTs now : ℚ) : FetchStatsLegacy :=
  let d := (now - startTs) / 1000
  let duration := if d = 0 then 1 / 1000 else d
  { size := size, duration := duration, speed := jsRoundDiv (size : ℚ) duration }

/-! ### Helper lemmas about the completion cell -/

theorem resolve_isSome (c : Completion) (s : OpStats) :
    ((c.resolve s).cell).isSome = true := by
  unfold Completion.resolve
  cases c.cell <;> simp

theorem reject_isSome (c : Completion) (e : JsError) (s : OpStats) :
    ((c.reject e s).cell).isSome = true := by
  unfold Completion.reject
  cases c.cell <;> simp

/-- A completion cell is well-counted when the effective settle counter
matches the settledness of the cell. -/
def Good (c : Completion) : Prop :=
  c.settles = (if c.cell.isSome then 1 else 0)

theorem good_init : Good ({} : Completion) := by
  simp [Good]

theorem good_resolve {c : Completion} (h : Good c) (s : OpStats) :
    Good (c.resolve s) := by
  unfold Good Completion.resolve at *
  cases hc : c.cell <;> simp [hc] at h ⊢ <;> omega

theorem good_reject {c : Completion} (h : Good c) (e : JsError) (s : OpStats) :
    Good (c.reject e s) := by
  unfold Good Completion.reject at *
  cases hc : c.cell <;> simp [hc] at h ⊢ <;> omega

theorem resolve_cell_none {c : Completion} (h : c.cell = none) (s : OpStats) :
    (c.resolve s).cell = some (.ok s) := by
  unfold Completion.resolve
  rw [h]

theorem reject_cell_none {c : Completion} (h : c.cell = none) (e : JsError) (s : OpStats) :
    (c.reject e s).cell = some (.err e s) := by
  unfold Completion.reject
  rw [h]

theorem reject_cell_some {c : Completion} {x : Settled} (h : c.cell = some x)
    (e : JsError) (s : OpStats) : (c.reject e s).cell = some x := by
  unfold Completion.reject
  rw [h]

/-! ### Helper lemmas about the state signals and the retry decision -/

theorem signalErr_comp (st : OpState) (e : JsError) :
    (st.signalErr e).comp = st.comp.reject e st.stats := rfl

theorem signalSuccess_comp (st : OpState) :
    st.signalSuccess.comp = st.comp.resolve st.stats := rfl

theorem rsr_comp (rf : RetryFn) (st : OpState) (er : Option JsError) (hr : Bool) :
    (runShouldRetry rf st er hr).snd.comp = st.comp := by
  unfold runShouldRetry
  rcases st.options.retry with _ | n | _
  · rfl
  · rfl
  · rcases hrf : rf ⟨st.attempt, st.resource, st.options, er, hr⟩ with e | b | ⟨r, o⟩
    · rfl
    · rfl
    · rcases r with _ | res <;> rcases o with _ | p <;> rfl

theorem rsr_options_retry (rf : RetryFn) (st : OpState) (er : Option JsError) (hr : Bool)
    (h : st.options.retry = .noRetry ∨ ∃ n, st.options.retry = .num n) :
    (runShouldRetry rf st er hr).snd.options.retry = st.options.retry := by
  unfold runShouldRetry
  rcases h with h | ⟨n, h⟩ <;> rw [h] <;> exact h

theorem rsr_num {st : OpState} {n : Nat} (h : st.options.retry = .num n)
    (rf : RetryFn) (er : Option JsError) (hr : Bool) :
    runShouldRetry rf st er hr = (decide (st.attempt < n), st) := by
  unfold runShouldRetry
  rw [h]

theorem rsr_noRetry {st : OpState} (h : st.options.retry = .noRetry)
    (rf : RetryFn) (er : Option JsError) (hr : Bool) :
    runShouldRetry rf st er hr = (false, st) := by
  unfold runShouldRetry
  rw [h]

/-! ### How each loop iteration touches the completion cell -/

theorem retryOrFinish_retry_comp {rf : RetryFn} {st st1 : OpState} {e : JsError} {hr : Bool}
    (h : retryOrFinish rf st e hr = .retryWith st1) : st1.comp = st.comp := by
  unfold retryOrFinish at h
  simp only [] at h
  split at h
  · cases h
    exact rsr_comp rf st (some e) hr
  · cases h

theorem retryOrFinish_done_comp {rf : RetryFn} {st st1 : OpState} {e : JsError} {hr : Bool}
    {r : FetchOut} (h : retryOrFinish rf st e hr = .done st1 r) :
    r = .thrown e ∧ ∃ s, st1.comp = st.comp.reject e s := by
  unfold retryOrFinish at h
  simp only [] at h
  split at h
  · cases h
  · cases h
    refine ⟨rfl, (runShouldRetry rf st (some e) hr).snd.stats, ?_⟩
    rw [signalErr_comp, rsr_comp]

theorem finishOk_comp {st st1 : OpState} {resp : TranspResp} {hasBody : Bool}
    {r : FetchOut} (h : finishOk st resp hasBody = .done st1 r) :
    (hasBody = true ∧ r = .ok (.proxied resp.status) ∧ st1.comp = st.comp) ∨
    (hasBody = false ∧ r = .ok (.bodyless resp.status) ∧ ∃ s, st1.comp = st.comp.resolve s) := by
  unfold finishOk at h
  split at h
  · cases h
    exact .inl ⟨by assumption, rfl, rfl⟩
  · cases h
    exact .inr ⟨by simpa using (by assumption : ¬ hasBody = true), rfl, ⟨st.stats, rfl⟩⟩

theorem finishOk_ne_retry {st st1 : OpState} {resp : TranspResp} {hasBody : Bool}
    (h : finishOk st resp hasBody = .retryWith st1) : False := by
  unfold finishOk at h
  split at h <;> cases h

/-- Iterations that retry do not touch the completion cell. -/
theorem fetchStep_retry_comp {tr : Transport} {rf : RetryFn} {st st1 : OpState}
    (h : fetchStep tr rf st = .retryWith st1) : st1.comp = st.comp := by
  unfold fetchStep at h
  simp only [] at h
  split at h
  · exact (retryOrFinish_retry_comp h).trans rfl
  · split at h
    · split at h
      · exact (retryOrFinish_retry_comp h).trans rfl
      · exact absurd h finishOk_ne_retry
    · exact absurd h finishOk_ne_retry

/-- A finishing iteration signals reject on a throw, resolve on a
bodyless return, and leaves the cell alone on a proxied return. -/
theorem fetchStep_done_comp {tr : Transport} {rf : RetryFn} {st st1 : OpState}
    {r : FetchOut} (h : fetchStep tr rf st = .done st1 r) :
    (∃ e s, r = .thrown e ∧ st1.comp = st.comp.reject e s) ∨
    (∃ n s, r = .ok (.bodyless n) ∧ st1.comp = st.comp.resolve s) ∨
    (∃ n, r = .ok (.proxied n) ∧ st1.comp = st.comp) := by
  unfold fetchStep at h
  simp only [] at h
  split at h
  · rcases retryOrFinish_done_comp h with ⟨hr, s, hc⟩
    exact .inl ⟨_, s, hr, hc⟩
  · rename_i resp hresp
    split at h
    · split at h
      · rcases retryOrFinish_done_comp h with ⟨hr, s, hc⟩
        exact .inl ⟨_, s, hr, hc⟩
      · rcases finishOk_comp h with ⟨_, hr, hc⟩ | ⟨_, hr, s, hc⟩
        · exact .inr (.inr ⟨resp.status, hr, hc⟩)
        · exact .inr (.inl ⟨resp.status, s, hr, hc⟩)
    · rcases finishOk_comp h with ⟨_, hr, hc⟩ | ⟨_, hr, s, hc⟩
      · exact .inr (.inr ⟨resp.status, hr, hc⟩)
      · exact .inr (.inl ⟨resp.status, s, hr, hc⟩)

/-- Across the whole attempt loop the completion cell is rejected on a
throw, resolved on a bodyless return, and untouched on a proxied return. -/
theorem fetchLoop_comp {tr : Transport} {rf : RetryFn} :
    ∀ {fuel : Nat} {st st1 : OpState} {r : FetchOut},
    fetchLoop tr rf fuel st = some (st1, r) →
    (∃ e s, r = .thrown e ∧ st1.comp = st.comp.reject e s) ∨
    (∃ n s, r = .ok (.bodyless n) ∧ st1.comp = st.comp.resolve s) ∨
    (∃ n, r = .ok (.proxied n) ∧ st1.comp = st.comp) := by
  intro fuel
  induction fuel with
  | zero => intro st st1 r h; cases h
  | succ f ih =>
    intro st st1 r h
    rw [fetchLoop] at h
    rcases hs : fetchStep tr rf st with st2 | ⟨st2, r2⟩
    · rw [hs] at h
      have h2 := fetchStep_retry_comp hs
      rcases ih h with ⟨e, s, hr, hc⟩ | ⟨n, s, hr, hc⟩ | ⟨n, hr, hc⟩
      · exact .inl ⟨e, s, hr, by rw [hc, h2]⟩
      · exact .inr (.inl ⟨n, s, hr, by rw [hc, h2]⟩)
      · exact .inr (.inr ⟨n, hr, by rw [hc, h2]⟩)
    · rw [hs] at h
      cases h
      exact fetchStep_done_comp hs

theorem fetchLoop_thrown_cell {tr : Transport} {rf : RetryFn} {fuel : Nat}
    {st st1 : OpState} {e : JsError} (h : fetchLoop tr rf fuel st = some (st1, .thrown e)) :
    ∃ s, st1.comp = st.comp.reject e s := by
  rcases fetchLoop_comp h with ⟨e2, s, hr, hc⟩ | ⟨n, s, hr, hc⟩ | ⟨n, hr, hc⟩
  · cases hr; exact ⟨s, hc⟩
  · cases hr
  · cases hr

theorem fetchLoop_proxied_comp {tr : Transport} {rf : RetryFn} {fuel : Nat}
    {st st1 : OpState} {n : Nat} (h : fetchLoop tr rf fuel st = some (st1, .ok (.proxied n))) :
    st1.comp = st.comp := by
  rcases fetchLoop_comp h with ⟨e, s, hr, hc⟩ | ⟨m, s, hr, hc⟩ | ⟨m, hr, hc⟩
  · cases hr
  · cases hr
  · cases hr; exact hc

theorem fetchLoop_good {tr : Transport} {rf : RetryFn} {fuel : Nat}
    {st st1 : OpState} {r : FetchOut} (h : fetchLoop tr rf fuel st = some (st1, r))
    (hg : Good st.comp) : Good st1.comp := by
  rcases fetchLoop_comp h with ⟨e, s, hr, hc⟩ | ⟨n, s, hr, hc⟩ | ⟨n, hr, hc⟩
  · rw [hc]; exact good_reject hg e s
  · rw [hc]; exact good_resolve hg s
  · rw [hc]; exact hg

theorem fetchLoop_bodyless_cell {tr : Transport} {rf : RetryFn} {fuel : Nat}
    {st st1 : OpState} {n : Nat} (h : fetchLoop tr rf fuel st = some (st1, .ok (.bodyless n))) :
    ∃ s, st1.comp = st.comp.resolve s := by
  rcases fetchLoop_comp h with ⟨e, s, hr, hc⟩ | ⟨m, s, hr, hc⟩ | ⟨m, hr, hc⟩
  · cases hr
  · cases hr; exact ⟨s, hc⟩
  · cases hr

/-! ### How a proxied materialization call touches the completion cell -/

theorem matPhase_options (matO : MatOracle) (kind : MatKind) (st : OpState) :
    (matPhase matO kind st).fst.options = st.options := by
  unfold matPhase
  split
  · split
    · simp only []
      split <;> rfl
    · simp only []
      split <;> rfl
  · simp only []
    split
    · split <;> rfl
    · rfl

theorem matPhase_comp {matO : MatOracle} {kind : MatKind} {st st1 : OpState}
    {r : Except JsError String} (h : matPhase matO kind st = (st1, r)) :
    (∃ v, r = .ok v ∧ ((∃ s, st1.comp = st.comp.resolve s) ∨
        ∃ s s2, st1.comp = (st.comp.resolve s2).resolve s)) ∨
    (∃ e, r = .error e ∧ (st1.comp = st.comp ∨ ∃ s, st1.comp = st.comp.reject e s)) := by
  unfold matPhase at h
  split at h
  · split at h
    · simp only [] at h
      split at h <;> cases h
      · exact .inl ⟨_, rfl, .inl ⟨_, rfl⟩⟩
      · exact .inl ⟨_, rfl, .inr ⟨_, _, rfl⟩⟩
    · simp only [] at h
      split at h <;> cases h
      · exact .inr ⟨_, rfl, .inl rfl⟩
      · exact .inr ⟨_, rfl, .inr ⟨_, rfl⟩⟩
  · simp only [] at h
    split at h
    · split at h <;> cases h
      · exact .inl ⟨_, rfl, .inl ⟨_, rfl⟩⟩
      · exact .inr ⟨_, rfl, .inl rfl⟩
    · cases h
      exact .inr ⟨_, rfl, .inl rfl⟩

theorem matPhase_ok_isSome {matO : MatOracle} {kind : MatKind} {st st1 : OpState}
    {v : String} (h : matPhase matO kind st = (st1, .ok v)) :
    (st1.comp.cell).isSome = true := by
  rcases matPhase_comp h with ⟨v2, _, ⟨s, hc⟩ | ⟨s, s2, hc⟩⟩ | ⟨e, he, _⟩
  · rw [hc]; exact resolve_isSome _ _
  · rw [hc]; exact resolve_isSome _ _
  · cases he

theorem matPhase_error_cell {matO : MatOracle} {kind : MatKind} {st st1 : OpState}
    {e : JsError} (h : matPhase matO kind st = (st1, .error e)) :
    st1.comp = st.comp ∨ ∃ s, st1.comp = st.comp.reject e s := by
  rcases matPhase_comp h with ⟨v, hv, _⟩ | ⟨e2, he, hc⟩
  · cases hv
  · cases he; exact hc

theorem matPhase_good {matO : MatOracle} {kind : MatKind} {st st1 : OpState}
    {r : Except JsError String} (h : matPhase matO kind st = (st1, r))
    (hg : Good st.comp) : Good st1.comp := by
  rcases matPhase_comp h with ⟨v, _, ⟨s, hc⟩ | ⟨s, s2, hc⟩⟩ | ⟨e, _, hc | ⟨s, hc⟩⟩
  · rw [hc]; exact good_resolve hg s
  · rw [hc]; exact good_resolve (good_resolve hg s2) s
  · rw [hc]; exact hg
  · rw [hc]; exact good_reject hg e s

/-- Every completed proxied materialization call leaves the completion
cell settled. -/
theorem proxyCall_settled {tr : Transport} {rf : RetryFn} {matO : MatOracle}
    {kind : MatKind} : ∀ {fuel : Nat} {st : OpState}
    {p : OpState × Except JsError String},
    proxyCall tr rf matO kind fuel st = some p → (p.fst.comp.cell).isSome = true := by
  intro fuel
  induction fuel with
  | zero => intro st p h; cases h
  | succ f ih =>
    intro st p h
    rw [proxyCall] at h
    rcases hm : matPhase matO kind st with ⟨st1, r1⟩
    rw [hm] at h
    rcases r1 with e | v
    · simp only [] at h
      split at h
      · rcases hl : fetchLoop tr rf f (runShouldRetry rf st1 (some e) true).snd with
          _ | ⟨st2, r2⟩
        · rw [hl] at h; cases h
        · rw [hl] at h
          rcases r2 with r2 | e2
          · rcases r2 with n | n
            · cases h
              rcases fetchLoop_bodyless_cell hl with ⟨s, hc⟩
              rw [hc]; exact resolve_isSome _ _
            · exact ih h
          · cases h
            rcases fetchLoop_thrown_cell hl with ⟨s, hc⟩
            rw [hc]; exact reject_isSome _ _ _
      · cases h
        rw [signalErr_comp]
        exact reject_isSome _ _ _
    · cases h
      exact matPhase_ok_isSome hm

/-- Every completed proxied materialization call keeps the settle counter
consistent with the cell. -/
theorem proxyCall_good {tr : Transport} {rf : RetryFn} {matO : MatOracle}
    {kind : MatKind} : ∀ {fuel : Nat} {st : OpState}
    {p : OpState × Except JsError String},
    proxyCall tr rf matO kind fuel st = some p → Good st.comp → Good p.fst.comp := by
  intro fuel
  induction fuel with
  | zero => intro st p h; cases h
  | succ f ih =>
    intro st p h hg
    rw [proxyCall] at h
    rcases hm : matPhase matO kind st with ⟨st1, r1⟩
    rw [hm] at h
    have hg1 : Good st1.comp := matPhase_good hm hg
    rcases r1 with e | v
    · simp only [] at h
      split at h
      · have hg2 : Good (runShouldRetry rf st1 (some e) true).snd.comp := by
          rw [rsr_comp]; exact hg1
        rcases hl : fetchLoop tr rf f (runShouldRetry rf st1 (some e) true).snd with
          _ | ⟨st2, r2⟩
        · rw [hl] at h; cases h
        · rw [hl] at h
          have hg3 : Good st2.comp := fetchLoop_good hl hg2
          rcases r2 with r2 | e2
          · rcases r2 with n | n
            · cases h; exact hg3
            · exact ih h hg3
          · cases h; exact hg3
      · cases h
        rw [signalErr_comp, rsr_comp]
        exact good_reject hg1 _ _
    · cases h
      exact hg1

/-! ### Denial paths leave the state as it was -/

theorem rsr_false_snd {rf : RetryFn} {st st2 : OpState} {er : Option JsError} {hr : Bool}
    (h : runShouldRetry rf st er hr = (false, st2)) : st2 = st := by
  unfold runShouldRetry at h
  rcases hro : st.options.retry with _ | n | _ <;> rw [hro] at h
  · simp only [Prod.mk.injEq] at h
    exact h.2.symm
  · simp only [Prod.mk.injEq] at h
    exact h.2.symm
  · rcases hrf : rf ⟨st.attempt, st.resource, st.options, er, hr⟩ with e | b | ⟨r, o⟩ <;>
      rw [hrf] at h
    · simp only [Prod.mk.injEq] at h
      exact h.2.symm
    · simp only [Prod.mk.injEq] at h
      exact h.2.symm
    · simp only [Prod.mk.injEq] at h
      cases h.1

theorem retryOrFinish_done_state {rf : RetryFn} {st st1 : OpState} {e : JsError}
    {hr : Bool} {r : FetchOut} (h : retryOrFinish rf st e hr = .done st1 r) :
    r = .thrown e ∧ st1 = st.signalErr e := by
  unfold retryOrFinish at h
  simp only [] at h
  split at h
  · cases h
  · rename_i hfst
    cases h
    have hf : (runShouldRetry rf st (some e) hr).1 = false := by
      simpa using hfst
    have hp : runShouldRetry rf st (some e) hr =
        (false, (runShouldRetry rf st (some e) hr).2) := by
      rw [← hf]
    have hsnd := rsr_false_snd hp
    rw [hsnd]
    exact ⟨rfl, rfl⟩

theorem retryOrFinish_noRetry {rf : RetryFn} {st : OpState} {e : JsError} {hr : Bool}
    (h : st.options.retry = .noRetry) :
    retryOrFinish rf st e hr = .done (st.signalErr e) (.thrown e) := by
  unfold retryOrFinish
  rw [rsr_noRetry h]
  rfl

/-- With no retry configured no iteration ever loops, and the finishing
state keeps the original options. -/
theorem fetchStep_noRetry {tr : Transport} {rf : RetryFn} {st : OpState}
    (h : st.options.retry = .noRetry) :
    (∀ st1, fetchStep tr rf st = .retryWith st1 → False) ∧
    (∀ st1 r, fetchStep tr rf st = .done st1 r → st1.options = st.options) := by
  have hd : (dispatchState st).options.retry = .noRetry := h
  have hv : (validatingState (dispatchState st)).options.retry = .noRetry := h
  unfold fetchStep
  simp only []
  constructor
  · intro st1 hs
    split at hs
    · rw [retryOrFinish_noRetry hd] at hs
      cases hs
    · split at hs
      · split at hs
        · rw [retryOrFinish_noRetry hv] at hs
          cases hs
        · exact absurd hs finishOk_ne_retry
      · exact absurd hs finishOk_ne_retry
  · intro st1 r hs
    split at hs
    · rw [retryOrFinish_noRetry hd] at hs
      cases hs; rfl
    · split at hs
      · split at hs
        · rw [retryOrFinish_noRetry hv] at hs
          cases hs; rfl
        · unfold finishOk at hs
          split at hs <;> cases hs <;> rfl
      · unfold finishOk at hs
        split at hs <;> cases hs <;> rfl

theorem fetchLoop_noRetry_options {tr : Transport} {rf : RetryFn} {fuel : Nat}
    {st st1 : OpState} {r : FetchOut} (hnr : st.options.retry = .noRetry)
    (h : fetchLoop tr rf fuel st = some (st1, r)) : st1.options = st.options := by
  cases fuel with
  | zero => cases h
  | succ f =>
    rw [fetchLoop] at h
    rcases hs : fetchStep tr rf st with st2 | ⟨st2, r2⟩
    · exact absurd hs ((fetchStep_noRetry hnr).1 st2)
    · rw [hs] at h
      cases h
      exact (fetchStep_noRetry hnr).2 _ _ hs

/-- With no retry configured, a materialization call that rethrows has
first rejected the completion cell with the same error. -/
theorem proxyCall_noRetry_err {tr : Transport} {rf : RetryFn} {matO : MatOracle}
    {kind : MatKind} {fuel : Nat} {st st1 : OpState} {e : JsError}
    (hnr : st.options.retry = .noRetry)
    (h : proxyCall tr rf matO kind fuel st = some (st1, .error e))
    (hc : st.comp.cell = none) :
    ∃ s, st1.comp.cell = some (.err e s) := by
  cases fuel with
  | zero => cases h
  | succ f =>
    rw [proxyCall] at h
    rcases hm : matPhase matO kind st with ⟨stm, r1⟩
    rw [hm] at h
    rcases r1 with e1 | v
    · simp only [] at h
      have hopts := matPhase_options matO kind st
      rw [hm] at hopts
      have hnr2 : stm.options.retry = .noRetry := by rw [hopts]; exact hnr
      rw [rsr_noRetry hnr2] at h
      simp only [] at h
      cases h
      rcases matPhase_error_cell hm with hcm | ⟨s, hcm⟩
      · refine ⟨stm.stats, ?_⟩
        rw [signalErr_comp, hcm]
        exact reject_cell_none hc e stm.stats
      · refine ⟨s, ?_⟩
        rw [signalErr_comp, hcm]
        have hx : (st.comp.reject e s).cell = some (.err e s) := reject_cell_none hc e s
        rw [reject_cell_some hx]
    · simp at h

/-! ### The attempt loop under a persistently failing transport -/

theorem fetchStep_err {tr : Transport} {rf : RetryFn} {eF : Nat → JsError} (st : OpState)
    (htr : ∀ a r p, tr a r p = .error (eF a)) :
    fetchStep tr rf st = retryOrFinish rf (dispatchState st) (eF (st.attempt + 1)) false := by
  unfold fetchStep
  simp only []
  rw [htr]
  rfl

/-- A numeric retry ceiling N with a transport failing on every attempt:
starting below the ceiling the loop runs to exactly attempt N, throws the
error of attempt N, and rejects the completion cell with stats carrying
attempts = N. -/
theorem fetchLoop_num_persistent {tr : Transport} {rf : RetryFn} {eF : Nat → JsError}
    (htr : ∀ a r p, tr a r p = .error (eF a)) :
    ∀ (fuel : Nat) (st : OpState) (N : Nat), st.options.retry = .num N →
    st.attempt < N → N - st.attempt ≤ fuel →
    ∃ st2, fetchLoop tr rf fuel st = some (st2, .thrown (eF N)) ∧
      st2.attempt = N ∧ st2.transportCalls = st.transportCalls + (N - st.attempt) ∧
      st2.options = st.options ∧
      st2.comp = st.comp.reject (eF N) { size := none, attempts := N } := by
  intro fuel
  induction fuel with
  | zero =>
    intro st N hnum hlt hfuel
    omega
  | succ f ih =>
    intro st N hnum hlt hfuel
    rw [fetchLoop, fetchStep_err st htr]
    have hnum1 : (dispatchState st).options.retry = .num N := hnum
    unfold retryOrFinish
    rw [rsr_num hnum1]
    simp only []
    have hatt : (dispatchState st).attempt = st.attempt + 1 := rfl
    by_cases hcase : st.attempt + 1 < N
    · rw [if_pos (by simp only [hatt]; simpa using hcase)]
      rcases ih (dispatchState st) N hnum1 (by rw [hatt]; exact hcase) (by rw [hatt]; omega)
        with ⟨st2, hl, ha, htc, hopt, hcomp⟩
      refine ⟨st2, hl, ha, ?_, hopt, hcomp⟩
      have htc2 : (dispatchState st).transportCalls = st.transportCalls + 1 := rfl
      rw [htc, htc2, hatt]
      omega
    · have heq : st.attempt + 1 = N := by omega
      rw [if_neg (by simp only [hatt]; simpa using hcase)]
      rw [heq]
      refine ⟨_, rfl, ?_, ?_, rfl, ?_⟩
      · exact heq
      · show (dispatchState st).transportCalls = st.transportCalls + (N - st.attempt)
        have htc2 : (dispatchState st).transportCalls = st.transportCalls + 1 := rfl
        rw [htc2]
        omega
      · rw [signalErr_comp]
        have hstats : (dispatchState st).stats = ({ size := none, attempts := N } : OpStats) := by
          unfold OpState.stats dispatchState attemptEntry
          simp [heq]
        rw [hstats]
        rfl

/-! ### Claim C2 -/

/-- C2: for every attempt ceiling N >= 1 given as a numeric retry option,
shouldRetry grants retry exactly while the current attempt number is
strictly below N (hence refuses at attempt N), and a persistently failing
request makes exactly N attempts with the final rejected error carrying
attempts = N in its stats. -/
theorem claimC2_numeric_ceiling :
    (∀ (rf : RetryFn) (st : OpState) (N : Nat) (er : Option JsError) (hr : Bool),
      st.options.retry = .num N →
      (runShouldRetry rf st er hr).fst = decide (st.attempt < N)) ∧
    (∀ (tr : Transport) (rf : RetryFn) (eF : Nat → JsError) (res : Resource)
      (opts : FetchOptions) (N fuel : Nat),
      opts.retry = .num N → 1 ≤ N → N ≤ fuel →
      (∀ a r p, tr a r p = .error (eF a)) →
      ∃ st, fetchLoop tr rf fuel (initState res opts) = some (st, .thrown (eF N)) ∧
        st.attempt = N ∧ st.transportCalls = N ∧
        st.comp.cell = some (.err (eF N) { size := none, attempts := N })) := by
  constructor
  · intro rf st N er hr h
    rw [rsr_num h]
  · intro tr rf eF res opts N fuel hnum h1 hfuel htr
    rcases fetchLoop_num_persistent htr fuel (initState res opts) N hnum h1
        (by omega) with ⟨st2, hl, ha, htc, _, hcomp⟩
    refine ⟨st2, hl, ha, ?_, ?_⟩
    · rw [htc]
      show 0 + (N - 0) = N
      omega
    · rw [hcomp]
      rfl

/-- Witness for C2 at ceiling 3: the boundary decision at attempt 2 is a
grant, and three attempts happen against an always-failing transport. -/
theorem claimC2_numeric_ceiling_witness :
    (runShouldRetry (fun _ => .boolV false)
        { resource := "r", options := { retry := .num 3 }, attempt := 2 }
        (some .abort) false).fst = decide (2 < 3) ∧
    ∃ st, fetchLoop (fun _ _ _ => .error .abort) (fun _ => .boolV false) 3
        (initState "r" { retry := .num 3 }) = some (st, .thrown .abort) ∧
      st.attempt = 3 ∧ st.transportCalls = 3 ∧
      st.comp.cell = some (.err .abort { size := none, attempts := 3 }) :=
  ⟨claimC2_numeric_ceiling.1 (fun _ => .boolV false)
      { resource := "r", options := { retry := .num 3 }, attempt := 2 } 3
      (some .abort) false rfl,
   claimC2_numeric_ceiling.2 (fun _ _ _ => .error .abort) (fun _ => .boolV false)
      (fun _ => .abort) "r" { retry := .num 3 } 3 3 rfl (by decide) (by decide)
      (fun _ _ _ => rfl)⟩

/-! ### Claim C10 -/

/-- C10: with no retry entry in the options, shouldRetry denies for every
error and leaves the state untouched, so the operation makes exactly one
attempt and the failure of that single attempt propagates unchanged. -/
theorem claimC10_no_retry_single_attempt :
    (∀ (rf : RetryFn) (st : OpState) (er : Option JsError) (hr : Bool),
      st.options.retry = .noRetry → runShouldRetry rf st er hr = (false, st)) ∧
    (∀ (tr : Transport) (rf : RetryFn) (eF : Nat → JsError) (res : Resource)
      (opts : FetchOptions) (fuel : Nat),
      opts.retry = .noRetry →
      (∀ a r p, tr a r p = .error (eF a)) →
      ∃ st, fetchLoop tr rf (fuel + 1) (initState res opts) = some (st, .thrown (eF 1)) ∧
        st.attempt = 1 ∧ st.transportCalls = 1 ∧
        st.comp.cell = some (.err (eF 1) { size := none, attempts := 1 })) := by
  constructor
  · intro rf st er hr h
    exact rsr_noRetry h rf er hr
  · intro tr rf eF res opts fuel hnr htr
    have hd : (dispatchState (initState res opts)).options.retry = .noRetry := hnr
    rw [fetchLoop, fetchStep_err (initState res opts) htr, retryOrFinish_noRetry hd]
    exact ⟨_, rfl, rfl, rfl, rfl⟩

/-- Witness for C10: one attempt, the error of attempt 1 propagates. -/
theorem claimC10_no_retry_single_attempt_witness :
    runShouldRetry (fun _ => .boolV true)
        { resource := "r", options := {}, attempt := 1 } (some .abort) false
      = (false, { resource := "r", options := {}, attempt := 1 }) ∧
    ∃ st, fetchLoop (fun _ _ _ => .error (.user "boom")) (fun _ => .boolV true) 2
        (initState "r" {}) = some (st, .thrown (.user "boom")) ∧
      st.attempt = 1 ∧ st.transportCalls = 1 ∧
      st.comp.cell = some (.err (.user "boom") { size := none, attempts := 1 }) :=
  ⟨claimC10_no_retry_single_attempt.1 (fun _ => .boolV true)
      { resource := "r", options := {}, attempt := 1 } (some .abort) false rfl,
   claimC10_no_retry_single_attempt.2 (fun _ _ _ => .error (.user "boom"))
      (fun _ => .boolV true) (fun _ => .user "boom") "r" {} 1 rfl (fun _ _ _ => rfl)⟩

/-! ### Claim C4 -/

theorem stallLoop_quiet {T : Nat} :
    ∀ (gaps : List Nat) (t : Nat), (∀ g ∈ gaps, g < T) → stallLoop T t gaps = false := by
  intro gaps
  induction gaps with
  | nil => intro t _; rfl
  | cons g rest ih =>
    intro t hg
    rw [stallLoop]
    rw [if_neg (by have := hg g (by simp); omega)]
    exact ih (t + g) (fun x hx => hg x (by simp [hx]))

theorem stallLoop_fires {T : Nat} :
    ∀ (gaps : List Nat) (t : Nat), (∃ g ∈ gaps, T ≤ g) → stallLoop T t gaps = true := by
  intro gaps
  induction gaps with
  | nil => intro t h; simp at h
  | cons g rest ih =>
    intro t hg
    rw [stallLoop]
    by_cases hc : t + T ≤ t + g
    · rw [if_pos hc]
    · rw [if_neg hc]
      rcases hg with ⟨x, hx, hTx⟩
      rcases List.mem_cons.mp hx with rfl | hx2
      · omega
      · exact ih (t + g) ⟨x, hx2, hTx⟩

/-- C4: a configured stall budget T >= 1 is re-armed from the current
time on every chunk read, so it never fires when every read gap is
strictly below T — no matter how large the total transfer time gets —
and it fires whenever some single gap reaches T. -/
theorem claimC4_stall_rearm :
    ∀ (T t0 : Nat) (gaps : List Nat), 1 ≤ T →
    ((∀ g ∈ gaps, g < T) → stallFires (some T) t0 gaps = false) ∧
    ((∃ g ∈ gaps, T ≤ g) → stallFires (some T) t0 gaps = true) := by
  intro T t0 gaps hT
  constructor
  · intro hg
    show (if T = 0 then false else stallLoop T t0 gaps) = false
    rw [if_neg (by omega : ¬ T = 0)]
    exact stallLoop_quiet gaps t0 hg
  · intro hg
    show (if T = 0 then false else stallLoop T t0 gaps) = true
    rw [if_neg (by omega : ¬ T = 0)]
    exact stallLoop_fires gaps t0 hg

/-- Witness for C4 at T = 2: four gaps of 1 (total 4, well above T) never
fire the clock; a single gap of 3 fires it. -/
theorem claimC4_stall_rearm_witness :
    stallFires (some 2) 0 [1, 1, 1, 1] = false ∧
    stallFires (some 2) 0 [1, 3] = true :=
  ⟨(claimC4_stall_rearm 2 0 [1, 1, 1, 1] (by decide)).1 (by decide),
   (claimC4_stall_rearm 2 0 [1, 3] (by decide)).2 ⟨3, by decide, by decide⟩⟩

/-! ### Claim C9 -/

/-- C9 counterexample: the stats computation of signalCompleted has no
zero-duration floor guard — with a positive size and zero duration the
speed is Infinity — and divides by the duration in milliseconds, so 1000
bytes over 1000 ms yield speed 1, not the 1000 of a bytes-per-second
reading. -/
theorem claimC9_counterexample :
    (signalCompletedStats (some 1) 0 0 7).speed = JsNum.posInf ∧
    (signalCompletedStats (some 1000) 0 1000 1).speed = JsNum.num 1 := by
  constructor
  · show jsRoundDiv ((1 : Nat) : ℚ) ((0 : ℚ) - 0) = JsNum.posInf
    unfold jsRoundDiv
    rw [if_pos (by norm_num)]
    rw [if_neg (by norm_num)]
  · show jsRoundDiv ((1000 : Nat) : ℚ) ((1000 : ℚ) - 0) = JsNum.num 1
    unfold jsRoundDiv
    rw [if_neg (by norm_num)]
    have h1 : ((1000 : Nat) : ℚ) / ((1000 : ℚ) - 0) = 1 := by norm_num
    rw [h1, round_one]
    norm_num

/-- C9 (amended): the stats delivered through completed are duration =
now − startTs in milliseconds, the attempt count, and speed =
Math.round(size / duration) guarded by a zero-size truthiness check
(speed 0 when the byte counter is unset or zero) and finite whenever the
duration is positive; with a positive size and zero duration the speed is
Infinity — only the legacy calculateFetchStats applies a zero-duration
floor and always produces a finite speed. -/
theorem claimC9_amended_stats :
    ∀ (size : Option Nat) (startTs now : ℚ) (a : Nat),
      ((size = none ∨ size = some 0) →
        (signalCompletedStats size startTs now a).speed = .num 0) ∧
      (signalCompletedStats size startTs now a).duration = now - startTs ∧
      (signalCompletedStats size startTs now a).attempts = a ∧
      (startTs < now → ∃ q, (signalCompletedStats size startTs now a).speed = .num q) ∧
      (∀ sz, 0 < sz → now = startTs →
        (signalCompletedStats (some sz) startTs now a).speed = .posInf) ∧
      (∀ sz, ∃ q, (calculateFetchStats sz startTs now).speed = .num q) := by
  intro size startTs now a
  refine ⟨?_, rfl, rfl, ?_, ?_, ?_⟩
  · rintro (rfl | rfl) <;> rfl
  · intro hlt
    unfold signalCompletedStats
    rcases size with _ | sz
    · exact ⟨0, rfl⟩
    · simp only []
      by_cases hz : sz = 0
      · rw [if_neg (by simp [hz])]
        exact ⟨0, rfl⟩
      · rw [if_pos (by simpa using hz)]
        unfold jsRoundDiv
        rw [if_neg (by intro hx; rw [sub_eq_zero] at hx; exact absurd hx.symm (ne_of_lt hlt))]
        exact ⟨_, rfl⟩
  · intro sz hsz hnow
    unfold signalCompletedStats jsRoundDiv
    simp only []
    rw [if_pos (by omega)]
    rw [if_pos (by rw [hnow]; ring)]
    rw [if_neg (by simpa using by omega)]
  · intro sz
    unfold calculateFetchStats jsRoundDiv
    simp only []
    by_cases hd : (now - startTs) / 1000 = 0
    · rw [if_pos hd]
      rw [if_neg (by norm_num)]
      exact ⟨_, rfl⟩
    · rw [if_neg hd]
      rw [if_neg hd]
      exact ⟨_, rfl⟩

/-- Witness for C9 (amended). -/
theorem claimC9_amended_stats_witness :
    (signalCompletedStats none 0 10 2).speed = .num 0 ∧
    (signalCompletedStats (some 3) 0 0 1).speed = .posInf ∧
    ∃ q, (calculateFetchStats 5 0 2000).speed = .num q :=
  ⟨(claimC9_amended_stats none 0 10 2).1 (.inl rfl),
   (claimC9_amended_stats (some 3) 0 0 1).2.2.2.2.1 3 (by decide) rfl,
   (claimC9_amended_stats (some 1) 0 2000 1).2.2.2.2.2 5⟩

/-! ### Claim C5 -/

/-- C5 counterexample: with a pre-aborted external signal the operation
does reject with an abort-class error, but the transport collaborator IS
invoked (once) — the claim that it is never called is false: the wrapper
reaches origFetch and relies on the aborted signal to make it reject. -/
theorem claimC5_counterexample :
    (fetchLoop
        (undiciTransport fun _ =>
          .ok { status := 200, statusText := "OK", ok := true, hasBodyStream := true })
        (fun _ => .boolV false) 3
        (initState "res" { signal := some { aborted := true } })).map
      (fun p => (p.fst.transportCalls, p.snd)) = some (1, .thrown .abort) := by
  decide

/-- C5 (amended): with a pre-aborted external signal and no retry
configured, the operation rejects immediately (one attempt) with an
abort-class error; the transport collaborator is invoked exactly once,
with the merged internal signal already aborted — so by its contract it
rejects at once without network activity, whatever its response oracle
would have returned. -/
theorem claimC5_amended_preaborted :
    ∀ (respond : Nat → Except JsError TranspResp) (rf : RetryFn) (res : Resource)
      (opts : FetchOptions) (fuel : Nat),
      opts.signal = some { aborted := true } → opts.retry = .noRetry →
      (prepareOptions (attemptEntry (initState res opts))).signalAborted = true ∧
      ∃ st, fetchLoop (undiciTransport respond) rf (fuel + 1) (initState res opts) =
          some (st, .thrown .abort) ∧ st.transportCalls = 1 ∧ st.attempt = 1 := by
  intro respond rf res opts fuel hsig hnr
  have hpre : (prepareOptions (attemptEntry (initState res opts))).signalAborted = true := by
    unfold prepareOptions
    simp only []
    rw [show (attemptEntry (initState res opts)).options.signal = some { aborted := true }
        from hsig]
    simp
  refine ⟨hpre, ?_⟩
  have hd : (dispatchState (initState res opts)).options.retry = .noRetry := hnr
  have htr : undiciTransport respond (dispatchState (initState res opts)).attempt
      (dispatchState (initState res opts)).resource
      (prepareOptions (attemptEntry (initState res opts))) = .error .abort := by
    unfold undiciTransport
    rw [hpre]
    rfl
  have hstep : fetchStep (undiciTransport respond) rf (initState res opts) =
      .done ((dispatchState (initState res opts)).signalErr .abort) (.thrown .abort) := by
    unfold fetchStep
    simp only []
    rw [htr]
    exact retryOrFinish_noRetry hd
  rw [fetchLoop, hstep]
  exact ⟨_, rfl, rfl, rfl⟩

/-- Witness for C5 (amended). -/
theorem claimC5_amended_preaborted_witness :
    ∃ st, fetchLoop
        (undiciTransport fun _ =>
          .ok { status := 200, statusText := "OK", ok := true, hasBodyStream := true })
        (fun _ => .boolV false) 4
        (initState "res" { signal := some { aborted := true } }) =
      some (st, .thrown .abort) ∧ st.transportCalls = 1 ∧ st.attempt = 1 :=
  (claimC5_amended_preaborted
    (fun _ => .ok { status := 200, statusText := "OK", ok := true, hasBodyStream := true })
    (fun _ => .boolV false) "res" { signal := some { aborted := true } } 3 rfl rfl).2

/-! ### Claim C7 -/

theorem prepareOptions_headers (st : OpState) :
    (prepareOptions st).headers = st.options.headers := rfl

theorem prepareOptions_body (st : OpState) :
    (prepareOptions st).body = st.options.body := rfl

theorem prepareOptions_timeouts_of_none {st : OpState} (h : st.options.timeout = none) :
    (prepareOptions st).timeouts = st.options.timeouts := by
  unfold prepareOptions
  simp only []
  rw [h]

/-- C7: when the retry decision function returns an object, the granted
next attempt sees the resource replaced when one is given, the options
merged shallowly via Object.assign — every top-level field mentioned in
the patch replaces the old value, every unmentioned field survives — and
the merged options flow into the next attempt prepared options: its
timeout budgets, header set and body payload. -/
theorem claimC7_shallow_merge :
    ∀ (rf : RetryFn) (st : OpState) (p : OptionsPatch) (r : Option Resource)
      (er : Option JsError) (hres : Bool),
      st.options.retry = .fnUse →
      rf ⟨st.attempt, st.resource, st.options, er, hres⟩ = .obj r (some p) →
      (runShouldRetry rf st er hres).fst = true ∧
      (runShouldRetry rf st er hres).snd.options = assignOptions st.options p ∧
      (runShouldRetry rf st er hres).snd.resource = r.getD st.resource ∧
      (p.headers = none →
        (runShouldRetry rf st er hres).snd.options.headers = st.options.headers) ∧
      (p.timeouts = none →
        (runShouldRetry rf st er hres).snd.options.timeouts = st.options.timeouts) ∧
      (p.body = none →
        (runShouldRetry rf st er hres).snd.options.body = st.options.body) ∧
      (p.method = none →
        (runShouldRetry rf st er hres).snd.options.method = st.options.method) ∧
      (∀ hs, p.headers = some hs →
        (prepareOptions (attemptEntry (runShouldRetry rf st er hres).snd)).headers = hs) ∧
      (∀ b, p.body = some b →
        (prepareOptions (attemptEntry (runShouldRetry rf st er hres).snd)).body = some b) ∧
      (∀ ts, p.timeouts = some ts → p.timeout = none → st.options.timeout = none →
        (prepareOptions (attemptEntry (runShouldRetry rf st er hres).snd)).timeouts =
          some ts) := by
  intro rf st p r er hres hfn hrf
  have hrun : runShouldRetry rf st er hres =
      (true, { st with resource := r.getD st.resource,
                       options := assignOptions st.options p }) := by
    unfold runShouldRetry
    rw [hfn, hrf]
    rcases r with _ | res <;> rfl
  rw [hrun]
  have hto : (assignOptions st.options p).timeout =
      (match p.timeout with | some t => some t | none => st.options.timeout) := rfl
  refine ⟨rfl, rfl, rfl, ?_, ?_, ?_, ?_, ?_, ?_, ?_⟩
  · intro hp
    show (assignOptions st.options p).headers = st.options.headers
    unfold assignOptions
    rw [hp]
    rfl
  · intro hp
    show (assignOptions st.options p).timeouts = st.options.timeouts
    unfold assignOptions
    rw [hp]
  · intro hp
    show (assignOptions st.options p).body = st.options.body
    unfold assignOptions
    rw [hp]
  · intro hp
    show (assignOptions st.options p).method = st.options.method
    unfold assignOptions
    rw [hp]
  · intro hs hp
    rw [prepareOptions_headers]
    show (assignOptions st.options p).headers = hs
    unfold assignOptions
    rw [hp]
    rfl
  · intro b hp
    rw [prepareOptions_body]
    show (assignOptions st.options p).body = some b
    unfold assignOptions
    rw [hp]
  · intro ts hp hpt hst
    have hA : (assignOptions st.options p).timeout = none := by rw [hto, hpt, hst]
    rw [prepareOptions_timeouts_of_none (by exact hA)]
    show (assignOptions st.options p).timeouts = some ts
    unfold assignOptions
    rw [hp]

/-- Witness for C7: a patch carrying new headers, body and timeouts. -/
theorem claimC7_shallow_merge_witness :
    (runShouldRetry
      (fun _ => .obj (some "res2")
        (some { headers := some [("authorization", "Bearer X")],
                body := some "payload2",
                timeouts := some { request := some 2000 } }))
      { resource := "res", options := { retry := .fnUse, method := some "POST" } }
      (some .abort) false).snd.resource = "res2" ∧
    (prepareOptions (attemptEntry (runShouldRetry
      (fun _ => .obj (some "res2")
        (some { headers := some [("authorization", "Bearer X")],
                body := some "payload2",
                timeouts := some { request := some 2000 } }))
      { resource := "res", options := { retry := .fnUse, method := some "POST" } }
      (some .abort) false).snd)).headers = [("authorization", "Bearer X")] ∧
    (runShouldRetry
      (fun _ => .obj (some "res2")
        (some { headers := some [("authorization", "Bearer X")],
                body := some "payload2",
                timeouts := some { request := some 2000 } }))
      { resource := "res", options := { retry := .fnUse, method := some "POST" } }
      (some .abort) false).snd.options.method = some "POST" := by
  have hx := claimC7_shallow_merge
    (fun _ => .obj (some "res2")
      (some { headers := some [("authorization", "Bearer X")],
              body := some "payload2",
              timeouts := some { request := some 2000 } }))
    { resource := "res", options := { retry := .fnUse, method := some "POST" } }
    { headers := some [("authorization", "Bearer X")],
      body := some "payload2",
      timeouts := some { request := some 2000 } }
    (some "res2") (some .abort) false rfl rfl
  exact ⟨hx.2.2.1, hx.2.2.2.2.2.2.2.1 _ rfl, hx.2.2.2.2.2.2.1 rfl⟩

/-! ### Claim C8 -/

/-- C8: for a response whose status is 101, 103, 204, 205 or 304, or that
has no body stream, the wrapper never wraps a body stream: it returns a
bodyless response (body = null) and signals completion immediately with
success, with stats from the single attempt. -/
theorem claimC8_bodyless :
    ∀ (tr : Transport) (rf : RetryFn) (resp : TranspResp) (res : Resource)
      (opts : FetchOptions) (fuel : Nat),
      opts.validate = none →
      (∀ a r p, tr a r p = .ok resp) →
      (resp.hasBodyStream = false ∨ noBodyStatus resp.status = true) →
      ∃ st, fetchLoop tr rf (fuel + 1) (initState res opts) =
          some (st, .ok (.bodyless resp.status)) ∧
        FetchResult.wrapsBody (.bodyless resp.status) = false ∧
        FetchResult.bodyIsNull (.bodyless resp.status) = true ∧
        st.attempt = 1 ∧
        st.comp.cell = some (.ok { size := none, attempts := 1 }) := by
  intro tr rf resp res opts fuel hv htr hnb
  have hpv : (prepareOptions (attemptEntry (initState res opts))).validate = none := by
    unfold prepareOptions
    simp only []
    rw [show (attemptEntry (initState res opts)).options.validate = none from hv]
    rfl
  have hb : (resp.hasBodyStream && !(noBodyStatus resp.status)) = false := by
    rcases hnb with h | h <;> simp [h]
  have hstep : fetchStep tr rf (initState res opts) =
      .done ((dispatchState (initState res opts)).signalSuccess)
        (.ok (.bodyless resp.status)) := by
    unfold fetchStep
    simp only []
    rw [htr, hpv]
    show finishOk (dispatchState (initState res opts)) resp
        (resp.hasBodyStream && !(noBodyStatus resp.status)) = _
    rw [hb]
    rfl
  rw [fetchLoop, hstep]
  exact ⟨_, rfl, rfl, rfl, rfl, rfl⟩

/-- Witness for C8: a status-204 response that does come with a stream is
dumped and returned bodyless, completion resolved at once. -/
theorem claimC8_bodyless_witness :
    ∃ st, fetchLoop
        (fun _ _ _ =>
          .ok { status := 204, statusText := "No Content", ok := true, hasBodyStream := true })
        (fun _ => .boolV false) 3 (initState "res" {}) =
      some (st, .ok (.bodyless 204)) ∧
      FetchResult.wrapsBody (.bodyless 204) = false ∧
      FetchResult.bodyIsNull (.bodyless 204) = true ∧
      st.attempt = 1 ∧
      st.comp.cell = some (.ok { size := none, attempts := 1 }) :=
  claimC8_bodyless
    (fun _ _ _ =>
      .ok { status := 204, statusText := "No Content", ok := true, hasBodyStream := true })
    (fun _ => .boolV false)
    { status := 204, statusText := "No Content", ok := true, hasBodyStream := true }
    "res" {} 2 rfl (fun _ _ _ => rfl) (.inr (by decide))

/-! ### Claim C6 -/

/-- C6 counterexample: a response-level validator that throws exactly
when it can see the body attached to the response does throw — so the
body is NOT detached from the response handed to the validator in this
variant, contradicting the claim that the validator cannot read it. -/
theorem claimC6_counterexample :
    (fetchLoop
        (fun _ _ _ =>
          .ok { status := 200, statusText := "OK", ok := true, hasBodyStream := true })
        (fun _ => .boolV false) 3
        (initState "res"
          { validate := some (.vFn (fun rv _ =>
              if rv.bodyAttached then some (.user "sawBody") else none)) })).map
      (fun p => p.snd) = some (.thrown (.user "sawBody")) := by
  decide

/-- C6 (amended): a configured response-level validator runs before the
proxied response is returned to the caller, receiving the response with
its wrapped body still attached (not detached); when it throws, the error
goes to the retry decider — on denial the operation throws that error and
no response (hence no body) is handed out for that attempt, and on grant
a brand-new attempt produces the response that is eventually handed out. -/
theorem claimC6_amended_response_validation :
    ∀ (tr : Transport) (rf : RetryFn) (resp : TranspResp) (res : Resource)
      (f : RespView → Nat → Option JsError) (e : JsError) (fuel : Nat),
      resp.hasBodyStream = true → noBodyStatus resp.status = false →
      (∀ a r p, tr a r p = .ok resp) →
      (f (mkRespView resp true) 1 = some e →
        ∃ st, fetchLoop tr rf (fuel + 1)
            (initState res { validate := some (.vFn f), retry := .noRetry }) =
          some (st, .thrown e) ∧ ∃ s, st.comp.cell = some (.err e s)) ∧
      (f (mkRespView resp true) 1 = some e → f (mkRespView resp true) 2 = none →
        ∃ st, fetchLoop tr rf (fuel + 2)
            (initState res { validate := some (.vFn f), retry := .num 2 }) =
          some (st, .ok (.proxied resp.status)) ∧ st.attempt = 2) := by
  intro tr rf resp res f e fuel hbs hnbs htr
  have hb : (resp.hasBodyStream && !(noBodyStatus resp.status)) = true := by
    rw [hbs, hnbs]
    rfl
  constructor
  · intro hthrow
    set opts : FetchOptions := { validate := some (.vFn f), retry := .noRetry } with hopts
    have hpv : (prepareOptions (attemptEntry (initState res opts))).validate =
        some { response := some (.vFn f), perKind := fun _ => none } := by
      unfold prepareOptions
      simp only []
      rw [show (attemptEntry (initState res opts)).options.validate =
          some (.vFn f) from rfl]
      rfl
    have hvd : (validatingState (dispatchState (initState res opts))).options.retry =
        .noRetry := rfl
    have hstep : fetchStep tr rf (initState res opts) =
        .done ((validatingState (dispatchState (initState res opts))).signalErr e)
          (.thrown e) := by
      unfold fetchStep
      simp only []
      rw [htr, hpv]
      simp only [Option.bind]
      rw [hb]
      rw [show runRespValidator (.vFn f) (mkRespView resp true)
          ((validatingState (dispatchState (initState res opts))).attempt) = some e
          from hthrow]
      exact retryOrFinish_noRetry hvd
    rw [fetchLoop, hstep]
    exact ⟨_, rfl, _, rfl⟩
  · intro hthrow hpass
    set opts : FetchOptions := { validate := some (.vFn f), retry := .num 2 } with hopts
    have hpv : (prepareOptions (attemptEntry (initState res opts))).validate =
        some { response := some (.vFn f), perKind := fun _ => none } := by
      unfold prepareOptions
      simp only []
      rw [show (attemptEntry (initState res opts)).options.validate =
          some (.vFn f) from rfl]
      rfl
    have hvd : (validatingState (dispatchState (initState res opts))).options.retry =
        .num 2 := rfl
    have hstep1 : fetchStep tr rf (initState res opts) =
        .retryWith (validatingState (dispatchState (initState res opts))) := by
      unfold fetchStep
      simp only []
      rw [htr, hpv]
      simp only [Option.bind]
      rw [hb]
      rw [show runRespValidator (.vFn f) (mkRespView resp true)
          ((validatingState (dispatchState (initState res opts))).attempt) = some e
          from hthrow]
      unfold retryOrFinish
      simp only []
      rw [rsr_num hvd]
      rfl
    set stA : OpState := validatingState (dispatchState (initState res opts)) with hstA
    have hpv2 : (prepareOptions (attemptEntry stA)).validate =
        some { response := some (.vFn f), perKind := fun _ => none } := by
      unfold prepareOptions
      simp only []
      rw [show (attemptEntry stA).options.validate = some (.vFn f) from rfl]
      rfl
    have hstep2 : fetchStep tr rf stA =
        .done { validatingState (dispatchState stA) with validateStarted := false }
          (.ok (.proxied resp.status)) := by
      unfold fetchStep
      simp only []
      rw [htr, hpv2]
      simp only [Option.bind]
      rw [hb]
      rw [show runRespValidator (.vFn f) (mkRespView resp true)
          ((validatingState (dispatchState stA)).attempt) = none from hpass]
      rfl
    rw [fetchLoop, hstep1]
    simp only []
    rw [fetchLoop, hstep2]
    exact ⟨_, rfl, rfl⟩

/-- Witness for C6 (amended), with a validator throwing on attempt 1. -/
theorem claimC6_amended_response_validation_witness :
    (∃ st, fetchLoop
        (fun _ _ _ =>
          .ok { status := 200, statusText := "OK", ok := true, hasBodyStream := true })
        (fun _ => .boolV false) 3
        (initState "res"
          { validate := some (.vFn (fun _ a => if a = 1 then some (.user "bad") else none)),
            retry := .noRetry }) =
      some (st, .thrown (.user "bad")) ∧ ∃ s, st.comp.cell = some (.err (.user "bad") s)) ∧
    (∃ st, fetchLoop
        (fun _ _ _ =>
          .ok { status := 200, statusText := "OK", ok := true, hasBodyStream := true })
        (fun _ => .boolV false) 4
        (initState "res"
          { validate := some (.vFn (fun _ a => if a = 1 then some (.user "bad") else none)),
            retry := .num 2 }) =
      some (st, .ok (.proxied 200)) ∧ st.attempt = 2) :=
  ⟨(claimC6_amended_response_validation
      (fun _ _ _ =>
        .ok { status := 200, statusText := "OK", ok := true, hasBodyStream := true })
      (fun _ => .boolV false)
      { status := 200, statusText := "OK", ok := true, hasBodyStream := true }
      "res" (fun _ a => if a = 1 then some (.user "bad") else none) (.user "bad") 2
      rfl rfl (fun _ _ _ => rfl)).1 rfl,
   (claimC6_amended_response_validation
      (fun _ _ _ =>
        .ok { status := 200, statusText := "OK", ok := true, hasBodyStream := true })
      (fun _ => .boolV false)
      { status := 200, statusText := "OK", ok := true, hasBodyStream := true }
      "res" (fun _ a => if a = 1 then some (.user "bad") else none) (.user "bad") 2
      rfl rfl (fun _ _ _ => rfl)).2 rfl rfl⟩

/-! ### Claim C3 -/

/-- A per-kind validator that throws a given error on attempt 1 only. -/
def throwOnceValidator (valE : JsError) : PerKindFn :=
  fun _ a => if a = 1 then some valE else none

/-- Options with a numeric retry ceiling and a single per-kind body
validator installed for one materialization kind. -/
def retryValidateOpts (N : Nat) (kind : MatKind) (vf : PerKindFn) : FetchOptions where
  retry := .num N
  validate :=
    some (.vObj { response := none, perKind := fun k => if k = kind then some vf else none })

/-- C3: with a per-kind body validator that throws exactly once (on
attempt 1) and a numeric retry of at least 2, the caller call made on
attempt 1 response transparently resolves with attempt 2 data: the proxy
consults the retry decider, runs a brand-new attempt, delegates the same
materialization call to the new response, and completed resolves with
attempts = 2 and the size of attempt 2 body. -/
theorem claimC3_transparent_retry :
    ∀ (tr : Transport) (rf : RetryFn) (matO : MatOracle) (resp : TranspResp)
      (kind : MatKind) (data : Nat → String) (valE : JsError) (res : Resource)
      (N fuel : Nat),
      2 ≤ N →
      resp.hasBodyStream = true → noBodyStatus resp.status = false →
      (∀ a r p, tr a r p = .ok resp) →
      (∀ a, matO a kind = .ok (data a)) →
      ∃ st, runOp tr rf matO (fuel + 2) res
          (retryValidateOpts N kind (throwOnceValidator valE)) kind =
          some (st, .value (data 2)) ∧
        st.attempt = 2 ∧
        st.comp.cell = some (.ok { size := some (data 2).length, attempts := 2 }) := by
  intro tr rf matO resp kind data valE res N fuel hN hbs hnbs htr hm
  have hb : (resp.hasBodyStream && !(noBodyStatus resp.status)) = true := by
    rw [hbs, hnbs]
    rfl
  have hstepAny : ∀ stX : OpState,
      stX.options = retryValidateOpts N kind (throwOnceValidator valE) →
      fetchStep tr rf stX = .done (dispatchState stX) (.ok (.proxied resp.status)) := by
    intro stX hX
    unfold fetchStep
    simp only []
    rw [htr]
    rw [show (prepareOptions (attemptEntry stX)).validate =
        some { response := none,
               perKind := fun k => if k = kind then some (throwOnceValidator valE) else none }
        from by
      unfold prepareOptions
      simp only []
      rw [show (attemptEntry stX).options =
          retryValidateOpts N kind (throwOnceValidator valE) from hX]
      rfl]
    simp only [Option.bind]
    rw [hb]
    rfl
  have hloop1 : fetchLoop tr rf (fuel + 2)
      (initState res (retryValidateOpts N kind (throwOnceValidator valE))) =
      some (dispatchState (initState res (retryValidateOpts N kind (throwOnceValidator valE))),
        .ok (.proxied resp.status)) := by
    rw [fetchLoop, hstepAny _ rfl]
  have hmat1 : matPhase matO kind
      (dispatchState (initState res (retryValidateOpts N kind (throwOnceValidator valE)))) =
      ({ dispatchState (initState res (retryValidateOpts N kind (throwOnceValidator valE))) with
          validateStarted := true, size := some (data 1).length }, .error valE) := by
    unfold matPhase
    rw [show (dispatchState (initState res
        (retryValidateOpts N kind (throwOnceValidator valE)))).internalValidate.bind
        (fun v => v.perKind kind) = some (throwOnceValidator valE) from by
      show (if kind = kind then some (throwOnceValidator valE) else none) =
        some (throwOnceValidator valE)
      exact if_pos rfl]
    simp only []
    rw [show matO (dispatchState (initState res
        (retryValidateOpts N kind (throwOnceValidator valE)))).attempt kind =
        .ok (data 1) from hm 1]
    rfl
  have hloopM : fetchLoop tr rf (fuel + 1)
      ({ dispatchState (initState res (retryValidateOpts N kind (throwOnceValidator valE))) with
          validateStarted := true, size := some (data 1).length } : OpState) =
      some (dispatchState ({ dispatchState (initState res
            (retryValidateOpts N kind (throwOnceValidator valE))) with
          validateStarted := true, size := some (data 1).length } : OpState),
        .ok (.proxied resp.status)) := by
    rw [fetchLoop, hstepAny _ rfl]
  have hmat2 : matPhase matO kind
      (dispatchState ({ dispatchState (initState res
            (retryValidateOpts N kind (throwOnceValidator valE))) with
          validateStarted := true, size := some (data 1).length } : OpState)) =
      (({ dispatchState ({ dispatchState (initState res
              (retryValidateOpts N kind (throwOnceValidator valE))) with
            validateStarted := true, size := some (data 1).length } : OpState) with
          validateStarted := true, size := some (data 2).length } : OpState).signalSuccess,
        .ok (data 2)) := by
    unfold matPhase
    rw [show (dispatchState ({ dispatchState (initState res
          (retryValidateOpts N kind (throwOnceValidator valE))) with
          validateStarted := true, size := some (data 1).length } : OpState)).internalValidate.bind
        (fun v => v.perKind kind) = some (throwOnceValidator valE) from by
      show (if kind = kind then some (throwOnceValidator valE) else none) =
        some (throwOnceValidator valE)
      exact if_pos rfl]
    simp only []
    rw [show matO (dispatchState ({ dispatchState (initState res
          (retryValidateOpts N kind (throwOnceValidator valE))) with
          validateStarted := true, size := some (data 1).length } : OpState)).attempt kind =
        .ok (data 2) from hm 2]
    rfl
  have hproxy : proxyCall tr rf matO kind (fuel + 2)
      (dispatchState (initState res (retryValidateOpts N kind (throwOnceValidator valE)))) =
      some (({ dispatchState ({ dispatchState (initState res
              (retryValidateOpts N kind (throwOnceValidator valE))) with
            validateStarted := true, size := some (data 1).length } : OpState) with
          validateStarted := true, size := some (data 2).length } : OpState).signalSuccess,
        .ok (data 2)) := by
    rw [proxyCall, hmat1]
    simp only []
    rw [show runShouldRetry rf ({ dispatchState (initState res
        (retryValidateOpts N kind (throwOnceValidator valE))) with
        validateStarted := true, size := some (data 1).length } : OpState) (some valE) true =
        (decide (1 < N), ({ dispatchState (initState res
          (retryValidateOpts N kind (throwOnceValidator valE))) with
          validateStarted := true, size := some (data 1).length } : OpState)) from
      rsr_num rfl rf (some valE) true]
    rw [decide_eq_true (by omega : 1 < N)]
    rw [if_pos rfl]
    rw [hloopM]
    simp only []
    rw [proxyCall, hmat2]
  unfold runOp
  rw [hloop1]
  simp only []
  rw [hproxy]
  exact ⟨_, rfl, rfl, rfl⟩

/-- Witness for C3: blob validator throwing once, retry 5, data per
attempt; the call resolves with attempt 2 data and attempts = 2. -/
theorem claimC3_transparent_retry_witness :
    ∃ st, runOp
        (fun _ _ _ =>
          .ok { status := 200, statusText := "OK", ok := true, hasBodyStream := true })
        (fun _ => .boolV false)
        (fun a _ => .ok ("data" ++ toString a)) 4 "res"
        (retryValidateOpts 5 MatKind.blob (throwOnceValidator (.user "bad")))
        MatKind.blob = some (st, .value "data2") ∧
      st.attempt = 2 ∧
      st.comp.cell = some (.ok { size := some 5, attempts := 2 }) :=
  claimC3_transparent_retry
    (fun _ _ _ =>
      .ok { status := 200, statusText := "OK", ok := true, hasBodyStream := true })
    (fun _ => .boolV false)
    (fun a _ => .ok ("data" ++ toString a))
    { status := 200, statusText := "OK", ok := true, hasBodyStream := true }
    MatKind.blob (fun a => "data" ++ toString a) (.user "bad") "res" 5 2
    (by decide) rfl rfl (fun _ _ _ => rfl) (fun _ => rfl)

/-! ### Claim C1 -/

/-- C1 counterexample: in the plain success path — no validator
configured, the caller materializes the body — resolve is invoked twice
(once by the body-stream completion callback, once by the proxy success
path), refuting the claim that exactly one of resolve/reject is invoked
exactly once; the promise still settles only once because the second
invocation is a no-op. -/
theorem claimC1_counterexample :
    (runOp (fun _ _ _ =>
        .ok { status := 200, statusText := "OK", ok := true, hasBodyStream := true })
      (fun _ => .boolV false) (fun _ _ => .ok "hello") 3 "res" {} .text).map
      (fun p => (p.fst.comp.resolveCount, p.fst.comp.rejectCount, p.snd)) =
      some (2, 0, .value "hello") := by
  decide

/-- C1 (amended): the completed promise settles exactly once at the
promise level for every completed run — the effective settle count of the
cell is 1 and the cell is filled — even though the resolver may be
invoked more than once; and with no retry configured, after the returned
response has rejected from a materialization call, completed holds the
same failure outcome. -/
theorem claimC1_amended_settles_once :
    ∀ (tr : Transport) (rf : RetryFn) (matO : MatOracle) (fuel : Nat)
      (res : Resource) (opts : FetchOptions) (kind : MatKind) (st : OpState)
      (out : OpOutcome),
      runOp tr rf matO fuel res opts kind = some (st, out) →
      st.comp.settles = 1 ∧ (st.comp.cell).isSome = true ∧
      (opts.retry = .noRetry → ∀ e, out = .threw e →
        ∃ s, st.comp.cell = some (.err e s)) := by
  intro tr rf matO fuel res opts kind st out h
  unfold runOp at h
  rcases hl : fetchLoop tr rf fuel (initState res opts) with _ | ⟨st0, r0⟩ <;>
    rw [hl] at h
  · cases h
  rcases r0 with r0 | e0
  · rcases r0 with n | n
    · simp only [] at h
      cases h
      rcases fetchLoop_bodyless_cell hl with ⟨s, hc⟩
      refine ⟨?_, ?_, ?_⟩
      · rw [hc]; rfl
      · rw [hc]; rfl
      · intro _ e he; cases he
    · simp only [] at h
      have hcomp0 : st0.comp = (initState res opts).comp := fetchLoop_proxied_comp hl
      rcases hp : proxyCall tr rf matO kind fuel st0 with _ | ⟨st2, r2⟩ <;> rw [hp] at h
      · cases h
      have hgood : Good st2.comp := by
        refine proxyCall_good hp ?_
        rw [hcomp0]
        exact good_init
      have hsome : (st2.comp.cell).isSome = true := proxyCall_settled hp
      have hsettles : st2.comp.settles = 1 := by
        unfold Good at hgood
        rw [hsome] at hgood
        simpa using hgood
      rcases r2 with e2 | v2
      · simp only [] at h
        cases h
        refine ⟨hsettles, hsome, ?_⟩
        intro hnr e he
        cases he
        have hnr0 : st0.options.retry = .noRetry := by
          have hx : st0.options = (initState res opts).options :=
            fetchLoop_noRetry_options hnr hl
          rw [hx]
          exact hnr
        exact proxyCall_noRetry_err hnr0 hp (by rw [hcomp0]; rfl)
      · simp only [] at h
        cases h
        exact ⟨hsettles, hsome, fun _ e he => by cases he⟩
  · simp only [] at h
    cases h
    rcases fetchLoop_thrown_cell hl with ⟨s, hc⟩
    refine ⟨?_, ?_, ?_⟩
    · rw [hc]; rfl
    · rw [hc]; rfl
    · intro _ e he
      cases he
      exact ⟨s, by rw [hc]; rfl⟩

/-- Witness for C1 (amended): the plain success run settles once, and a
no-retry run whose stream errors rejects completed with that error. -/
theorem claimC1_amended_settles_once_witness :
    (∃ st, runOp (fun _ _ _ =>
        .ok { status := 200, statusText := "OK", ok := true, hasBodyStream := true })
      (fun _ => .boolV false) (fun _ _ => .ok "hello") 3 "res" {} .text =
        some (st, .value "hello") ∧ st.comp.settles = 1) ∧
    (∃ st, runOp (fun _ _ _ =>
        .ok { status := 200, statusText := "OK", ok := true, hasBodyStream := true })
      (fun _ => .boolV false) (fun _ _ => .streamError (.user "cut")) 3 "res" {} .text =
        some (st, .threw (.user "cut")) ∧
      ∃ s, st.comp.cell = some (.err (.user "cut") s)) := by
  constructor
  · refine ⟨_, rfl, ?_⟩
    exact (claimC1_amended_settles_once
      (fun _ _ _ =>
        .ok { status := 200, statusText := "OK", ok := true, hasBodyStream := true })
      (fun _ => .boolV false) (fun _ _ => .ok "hello") 3 "res" {} .text _ _ rfl).1
  · refine ⟨_, rfl, ?_⟩
    exact (claimC1_amended_settles_once
      (fun _ _ _ =>
        .ok { status := 200, statusText := "OK", ok := true, hasBodyStream := true })
      (fun _ => .boolV false) (fun _ _ => .streamError (.user "cut")) 3 "res" {} .text
      _ _ rfl).2.2 rfl _ rfl

end FetchExtra